import Mathlib

/-!
Verification of the two reviewed source files of the pymapdl repository:

* `src/ansys/mapdl/core/_commands/preproc/meshing.py` — the `Meshing` class of
  one-line command formatters, each building a fixed comma-separated command
  string and forwarding it, together with the caller-supplied keyword options,
  to the injected `run` callable.
* `src/ansys/mapdl/core/cli/hpc.py` — the `submit` CLI command that resolves
  submission parameters from CLI arguments, a JSON configuration file and fixed
  defaults, invokes an external job factory, optionally persists the resolved
  configuration, and optionally blocks on an external completion check.

The Python code is shallowly embedded: the `run` callable and the keyword
options are abstract type parameters; the external helpers that are not part
of the reviewed sources are modelled from the specification, as marked in
their doc comments.
-/

namespace PyMapdl

/-- The `Meshing` mixin holds nothing but the injected `run` capability
(`self.run` in the Python source).  `α` is the type of the opaque keyword-option
bag (`**kwargs`), `β` the type of whatever `run` returns. -/
structure Meshing (α β : Type) where
  run : String → α → β

variable {α β : Type}

/-- Python `accat`: `command = f"ACCAT,{na1},{na2}"; return self.run(command, **kwargs)`. -/
def Meshing.accat (m : Meshing α β) (na1 na2 : String) (kwargs : α) : β :=
  let command := "ACCAT," ++ na1 ++ "," ++ na2
  m.run command kwargs

/-- Python `aclear`: `command = f"ACLEAR,{na1},{na2},{ninc}"`. -/
def Meshing.aclear (m : Meshing α β) (na1 na2 ninc : String) (kwargs : α) : β :=
  let command := "ACLEAR," ++ na1 ++ "," ++ na2 ++ "," ++ ninc
  m.run command kwargs

/-- Python `aesize`: `command = f"AESIZE,{anum},{size}"`. -/
def Meshing.aesize (m : Meshing α β) (anum size : String) (kwargs : α) : β :=
  let command := "AESIZE," ++ anum ++ "," ++ size
  m.run command kwargs

/-- Python `amap`: `command = f"AMAP,{area},{kp1},{kp2},{kp3},{kp4}"`. -/
def Meshing.amap (m : Meshing α β) (area kp1 kp2 kp3 kp4 : String) (kwargs : α) : β :=
  let command := "AMAP," ++ area ++ "," ++ kp1 ++ "," ++ kp2 ++ "," ++ kp3 ++ "," ++ kp4
  m.run command kwargs

/-- Python `amesh`: `command = f"AMESH,{na1},{na2},{ninc}"`. -/
def Meshing.amesh (m : Meshing α β) (na1 na2 ninc : String) (kwargs : α) : β :=
  let command := "AMESH," ++ na1 ++ "," ++ na2 ++ "," ++ ninc
  m.run command kwargs

/-- Python `arefine`: `command = f"AREFINE,{na1},{na2},{ninc},{level},{depth},{post},{retain}"`. -/
def Meshing.arefine (m : Meshing α β) (na1 na2 ninc level depth post retain : String) (kwargs : α) : β :=
  let command := "AREFINE," ++ na1 ++ "," ++ na2 ++ "," ++ ninc ++ "," ++ level ++ "," ++ depth ++ "," ++ post ++ "," ++ retain
  m.run command kwargs

/-- Python `chkmsh`: `command = f"CHKMSH,{comp}"`. -/
def Meshing.chkmsh (m : Meshing α β) (comp : String) (kwargs : α) : β :=
  let command := "CHKMSH," ++ comp
  m.run command kwargs

/-- Python `clrmshln`: no parameters, yet `command = f"CLRMSHLN,"` keeps a trailing comma. -/
def Meshing.clrmshln (m : Meshing α β) (kwargs : α) : β :=
  let command := "CLRMSHLN,"
  m.run command kwargs

/-- Python `cpcyc`: `command = f"CPCYC,{lab},{toler},{kcn},{dx},{dy},{dz},{knonrot}"`. -/
def Meshing.cpcyc (m : Meshing α β) (lab toler kcn dx dy dz knonrot : String) (kwargs : α) : β :=
  let command := "CPCYC," ++ lab ++ "," ++ toler ++ "," ++ kcn ++ "," ++ dx ++ "," ++ dy ++ "," ++ dz ++ "," ++ knonrot
  m.run command kwargs

/-- Python `czdel`: `command = f"CZDEL,{grp1},{grp2},{grp3}"`. -/
def Meshing.czdel (m : Meshing α β) (grp1 grp2 grp3 : String) (kwargs : α) : β :=
  let command := "CZDEL," ++ grp1 ++ "," ++ grp2 ++ "," ++ grp3
  m.run command kwargs

/-- Python `czmesh`: `command = f"CZMESH,{ecomps1},{ecomps2},{kcn},{kdir},{value},{cztol}"`. -/
def Meshing.czmesh (m : Meshing α β) (ecomps1 ecomps2 kcn kdir value cztol : String) (kwargs : α) : β :=
  let command := "CZMESH," ++ ecomps1 ++ "," ++ ecomps2 ++ "," ++ kcn ++ "," ++ kdir ++ "," ++ value ++ "," ++ cztol
  m.run command kwargs

/-- Python `desize`: `command = f"DESIZE,{minl},{minh},{mxel},{angl},{angh},{edgmn},{edgmx},{adjf},{adjm}"`. -/
def Meshing.desize (m : Meshing α β) (minl minh mxel angl angh edgmn edgmx adjf adjm : String) (kwargs : α) : β :=
  let command := "DESIZE," ++ minl ++ "," ++ minh ++ "," ++ mxel ++ "," ++ angl ++ "," ++ angh ++ "," ++ edgmn ++ "," ++ edgmx ++ "," ++ adjf ++ "," ++ adjm
  m.run command kwargs

/-- Python `eorient`: `command = f"EORIENT,{etype},{dir_},{toler}"`. -/
def Meshing.eorient (m : Meshing α β) (etype dir_ toler : String) (kwargs : α) : β :=
  let command := "EORIENT," ++ etype ++ "," ++ dir_ ++ "," ++ toler
  m.run command kwargs

/-- Python `erefine`: `command = f"EREFINE,{ne1},{ne2},{ninc}," f"{level},{depth},{post},{retain}"`
(two adjacent f-strings, concatenated). -/
def Meshing.erefine (m : Meshing α β) (ne1 ne2 ninc level depth post retain : String) (kwargs : α) : β :=
  let command := "EREFINE," ++ ne1 ++ "," ++ ne2 ++ "," ++ ninc ++ "," ++ level ++ "," ++ depth ++ "," ++ post ++ "," ++ retain
  m.run command kwargs

/-- Python `esize`: `command = f"ESIZE,{size},{ndiv}"`. -/
def Meshing.esize (m : Meshing α β) (size ndiv : String) (kwargs : α) : β :=
  let command := "ESIZE," ++ size ++ "," ++ ndiv
  m.run command kwargs

/-- Python `esys`: `command = f"ESYS,{kcn}"`. -/
def Meshing.esys (m : Meshing α β) (kcn : String) (kwargs : α) : β :=
  let command := "ESYS," ++ kcn
  m.run command kwargs

/-- Python `fvmesh`: `command = f"FVMESH,{keep}"`. -/
def Meshing.fvmesh (m : Meshing α β) (keep : String) (kwargs : α) : β :=
  let command := "FVMESH," ++ keep
  m.run command kwargs

/-- Python `gsgdata`: `command = f"GSGDATA,{lfiber},{xref},{yref},{rotx0},{roty0}"`. -/
def Meshing.gsgdata (m : Meshing α β) (lfiber xref yref rotx0 roty0 : String) (kwargs : α) : β :=
  let command := "GSGDATA," ++ lfiber ++ "," ++ xref ++ "," ++ yref ++ "," ++ rotx0 ++ "," ++ roty0
  m.run command kwargs

/-- Python `imesh`: `command = f"IMESH,{laky},{nsla},{ntla},{kcn},{dx},{dy},{dz},{tol}"`. -/
def Meshing.imesh (m : Meshing α β) (laky nsla ntla kcn dx dy dz tol : String) (kwargs : α) : β :=
  let command := "IMESH," ++ laky ++ "," ++ nsla ++ "," ++ ntla ++ "," ++ kcn ++ "," ++ dx ++ "," ++ dy ++ "," ++ dz ++ "," ++ tol
  m.run command kwargs

/-- Python `katt`: `command = f"KATT,{mat},{real},{type_},{esys}"`. -/
def Meshing.katt (m : Meshing α β) (mat real type_ esys : String) (kwargs : α) : β :=
  let command := "KATT," ++ mat ++ "," ++ real ++ "," ++ type_ ++ "," ++ esys
  m.run command kwargs

/-- Python `kclear`: `command = f"KCLEAR,{np1},{np2},{ninc}"`. -/
def Meshing.kclear (m : Meshing α β) (np1 np2 ninc : String) (kwargs : α) : β :=
  let command := "KCLEAR," ++ np1 ++ "," ++ np2 ++ "," ++ ninc
  m.run command kwargs

/-- Python `kesize`: `command = f"KESIZE,{npt},{size},{fact1},{fact2}"`. -/
def Meshing.kesize (m : Meshing α β) (npt size fact1 fact2 : String) (kwargs : α) : β :=
  let command := "KESIZE," ++ npt ++ "," ++ size ++ "," ++ fact1 ++ "," ++ fact2
  m.run command kwargs

/-- Python `kmesh`: `command = f"KMESH,{np1},{np2},{ninc}"`. -/
def Meshing.kmesh (m : Meshing α β) (np1 np2 ninc : String) (kwargs : α) : β :=
  let command := "KMESH," ++ np1 ++ "," ++ np2 ++ "," ++ ninc
  m.run command kwargs

/-- Python `krefine`: `command = f"KREFINE,{np1},{np2},{ninc},{level},{depth},{post},{retain}"`. -/
def Meshing.krefine (m : Meshing α β) (np1 np2 ninc level depth post retain : String) (kwargs : α) : β :=
  let command := "KREFINE," ++ np1 ++ "," ++ np2 ++ "," ++ ninc ++ "," ++ level ++ "," ++ depth ++ "," ++ post ++ "," ++ retain
  m.run command kwargs

/-- Python `kscon`: `command = f"KSCON,{npt},{delr},{kctip},{nthet},{rrat}"`. -/
def Meshing.kscon (m : Meshing α β) (npt delr kctip nthet rrat : String) (kwargs : α) : β :=
  let command := "KSCON," ++ npt ++ "," ++ delr ++ "," ++ kctip ++ "," ++ nthet ++ "," ++ rrat
  m.run command kwargs

/-- Python `latt`: `command = f"LATT,{mat},{real},{type_},,{kb},{ke},{secnum}"` — note the
literal empty field between `type_` and `kb`. -/
def Meshing.latt (m : Meshing α β) (mat real type_ kb ke secnum : String) (kwargs : α) : β :=
  let command := "LATT," ++ mat ++ "," ++ real ++ "," ++ type_ ++ ",," ++ kb ++ "," ++ ke ++ "," ++ secnum
  m.run command kwargs

/-- Python `lccat`: `command = f"LCCAT,{nl1},{nl2}"`. -/
def Meshing.lccat (m : Meshing α β) (nl1 nl2 : String) (kwargs : α) : β :=
  let command := "LCCAT," ++ nl1 ++ "," ++ nl2
  m.run command kwargs

/-- Python `lclear`: `command = f"LCLEAR,{nl1},{nl2},{ninc}"`. -/
def Meshing.lclear (m : Meshing α β) (nl1 nl2 ninc : String) (kwargs : α) : β :=
  let command := "LCLEAR," ++ nl1 ++ "," ++ nl2 ++ "," ++ ninc
  m.run command kwargs

/-- Python `lesize`: `command = f"LESIZE,{nl1},{size},{angsiz},{ndiv},{space},{kforc},{layer1},{layer2},{kyndiv}"`. -/
def Meshing.lesize (m : Meshing α β) (nl1 size angsiz ndiv space kforc layer1 layer2 kyndiv : String) (kwargs : α) : β :=
  let command := "LESIZE," ++ nl1 ++ "," ++ size ++ "," ++ angsiz ++ "," ++ ndiv ++ "," ++ space ++ "," ++ kforc ++ "," ++ layer1 ++ "," ++ layer2 ++ "," ++ kyndiv
  m.run command kwargs

/-- Python `lmesh`: `command = f"LMESH,{nl1},{nl2},{ninc}"`. -/
def Meshing.lmesh (m : Meshing α β) (nl1 nl2 ninc : String) (kwargs : α) : β :=
  let command := "LMESH," ++ nl1 ++ "," ++ nl2 ++ "," ++ ninc
  m.run command kwargs

/-- Python `lrefine`: `command = f"LREFINE,{nl1},{nl2},{ninc},{level},{depth},{post},{retain}"`. -/
def Meshing.lrefine (m : Meshing α β) (nl1 nl2 ninc level depth post retain : String) (kwargs : α) : β :=
  let command := "LREFINE," ++ nl1 ++ "," ++ nl2 ++ "," ++ ninc ++ "," ++ level ++ "," ++ depth ++ "," ++ post ++ "," ++ retain
  m.run command kwargs

/-- Python `mat`: `command = f"MAT,{mat}"`. -/
def Meshing.mat (m : Meshing α β) (mat : String) (kwargs : α) : β :=
  let command := "MAT," ++ mat
  m.run command kwargs

/-- Python `mcheck`: `command = f"MCHECK,{lab}"`. -/
def Meshing.mcheck (m : Meshing α β) (lab : String) (kwargs : α) : β :=
  let command := "MCHECK," ++ lab
  m.run command kwargs

/-- Python `modmsh`: `command = f"MODMSH,{lab}"`. -/
def Meshing.modmsh (m : Meshing α β) (lab : String) (kwargs : α) : β :=
  let command := "MODMSH," ++ lab
  m.run command kwargs

/-- Python `mopt`: `command = f"MOPT,{lab},{value}"`. -/
def Meshing.mopt (m : Meshing α β) (lab value : String) (kwargs : α) : β :=
  let command := "MOPT," ++ lab ++ "," ++ value
  m.run command kwargs

/-- Python `mshape`: `command = f"MSHAPE,{key},{dimension}"`. -/
def Meshing.mshape (m : Meshing α β) (key dimension : String) (kwargs : α) : β :=
  let command := "MSHAPE," ++ key ++ "," ++ dimension
  m.run command kwargs

/-- Python `mshcopy`: `command = f"MSHCOPY,{keyla},{laptrn},{lacopy},{kcn},{dx},{dy},{dz},{tol},{low},{high}"`. -/
def Meshing.mshcopy (m : Meshing α β) (keyla laptrn lacopy kcn dx dy dz tol low high : String) (kwargs : α) : β :=
  let command := "MSHCOPY," ++ keyla ++ "," ++ laptrn ++ "," ++ lacopy ++ "," ++ kcn ++ "," ++ dx ++ "," ++ dy ++ "," ++ dz ++ "," ++ tol ++ "," ++ low ++ "," ++ high
  m.run command kwargs

/-- Python `mshkey`: `command = f"MSHKEY,{key}"`. -/
def Meshing.mshkey (m : Meshing α β) (key : String) (kwargs : α) : β :=
  let command := "MSHKEY," ++ key
  m.run command kwargs

/-- Python `mshmid`: `command = f"MSHMID,{key}"`. -/
def Meshing.mshmid (m : Meshing α β) (key : String) (kwargs : α) : β :=
  let command := "MSHMID," ++ key
  m.run command kwargs

/-- Python `mshpattern`: `command = f"MSHPATTERN,{key}"`. -/
def Meshing.mshpattern (m : Meshing α β) (key : String) (kwargs : α) : β :=
  let command := "MSHPATTERN," ++ key
  m.run command kwargs

/-- Python `nrefine`: `command = f"NREFINE,{nn1},{nn2},{ninc},{level},{depth},{post},{retain}"`. -/
def Meshing.nrefine (m : Meshing α β) (nn1 nn2 ninc level depth post retain : String) (kwargs : α) : β :=
  let command := "NREFINE," ++ nn1 ++ "," ++ nn2 ++ "," ++ ninc ++ "," ++ level ++ "," ++ depth ++ "," ++ post ++ "," ++ retain
  m.run command kwargs

/-- Python `psmesh`: `command = f"PSMESH,{secid},{name},{p0},{egroup},{num},{kcn},{kdir},{value},{ndplane},{pstol},{pstype},{ecomp},{ncomp}"`. -/
def Meshing.psmesh (m : Meshing α β) (secid name p0 egroup num kcn kdir value ndplane pstol pstype ecomp ncomp : String) (kwargs : α) : β :=
  let command := "PSMESH," ++ secid ++ "," ++ name ++ "," ++ p0 ++ "," ++ egroup ++ "," ++ num ++ "," ++ kcn ++ "," ++ kdir ++ "," ++ value ++ "," ++ ndplane ++ "," ++ pstol ++ "," ++ pstype ++ "," ++ ecomp ++ "," ++ ncomp
  m.run command kwargs

/-- Python `real`: `command = f"REAL,{nset}"`. -/
def Meshing.real (m : Meshing α β) (nset : String) (kwargs : α) : β :=
  let command := "REAL," ++ nset
  m.run command kwargs

/-- Python `rthick`: `command = f"RTHICK,{par},{iloc},{jloc},{kloc},{lloc}"`. -/
def Meshing.rthick (m : Meshing α β) (par iloc jloc kloc lloc : String) (kwargs : α) : β :=
  let command := "RTHICK," ++ par ++ "," ++ iloc ++ "," ++ jloc ++ "," ++ kloc ++ "," ++ lloc
  m.run command kwargs

/-- Python `shpp`: `command = f"SHPP,{lab},{value1},{value2}"`. -/
def Meshing.shpp (m : Meshing α β) (lab value1 value2 : String) (kwargs : α) : β :=
  let command := "SHPP," ++ lab ++ "," ++ value1 ++ "," ++ value2
  m.run command kwargs

/-- Python `smrtsize`: `command = f"SMRTSIZE,{sizlvl},{fac},{expnd},{trans},{angl},{angh},{gratio},{smhlc},{smanc},{mxitr},{sprx}"`. -/
def Meshing.smrtsize (m : Meshing α β) (sizlvl fac expnd trans angl angh gratio smhlc smanc mxitr sprx : String) (kwargs : α) : β :=
  let command := "SMRTSIZE," ++ sizlvl ++ "," ++ fac ++ "," ++ expnd ++ "," ++ trans ++ "," ++ angl ++ "," ++ angh ++ "," ++ gratio ++ "," ++ smhlc ++ "," ++ smanc ++ "," ++ mxitr ++ "," ++ sprx
  m.run command kwargs

/-- Python `tchg`: `command = f"TCHG,{ename1},{ename2},{etype2}"`. -/
def Meshing.tchg (m : Meshing α β) (ename1 ename2 etype2 : String) (kwargs : α) : β :=
  let command := "TCHG," ++ ename1 ++ "," ++ ename2 ++ "," ++ etype2
  m.run command kwargs

/-- Python `timp`: `command = f"TIMP,{elem},{chgbnd},{implevel}"`. -/
def Meshing.timp (m : Meshing α β) (elem chgbnd implevel : String) (kwargs : α) : β :=
  let command := "TIMP," ++ elem ++ "," ++ chgbnd ++ "," ++ implevel
  m.run command kwargs

/-- Python `type`: `command = f"TYPE,{itype}"`. -/
def Meshing.type (m : Meshing α β) (itype : String) (kwargs : α) : β :=
  let command := "TYPE," ++ itype
  m.run command kwargs

/-- Python `vatt`: `command = f"VATT,{mat},{real},{type_},{esys},{secnum}"`. -/
def Meshing.vatt (m : Meshing α β) (mat real type_ esys secnum : String) (kwargs : α) : β :=
  let command := "VATT," ++ mat ++ "," ++ real ++ "," ++ type_ ++ "," ++ esys ++ "," ++ secnum
  m.run command kwargs

/-- Python `vclear`: `command = f"VCLEAR,{nv1},{nv2},{ninc}"`. -/
def Meshing.vclear (m : Meshing α β) (nv1 nv2 ninc : String) (kwargs : α) : β :=
  let command := "VCLEAR," ++ nv1 ++ "," ++ nv2 ++ "," ++ ninc
  m.run command kwargs

/-- Python `vimp`: `command = f"VIMP,{vol},{chgbnd},{implevel}"`. -/
def Meshing.vimp (m : Meshing α β) (vol chgbnd implevel : String) (kwargs : α) : β :=
  let command := "VIMP," ++ vol ++ "," ++ chgbnd ++ "," ++ implevel
  m.run command kwargs

/-- Python `vmesh`: `command = f"VMESH,{nv1},{nv2},{ninc}"`. -/
def Meshing.vmesh (m : Meshing α β) (nv1 nv2 ninc : String) (kwargs : α) : β :=
  let command := "VMESH," ++ nv1 ++ "," ++ nv2 ++ "," ++ ninc
  m.run command kwargs

/-- Python `veorient`: `command = f"VEORIENT,{vnum},{option},{value1},{value2}"`. -/
def Meshing.veorient (m : Meshing α β) (vnum option value1 value2 : String) (kwargs : α) : β :=
  let command := "VEORIENT," ++ vnum ++ "," ++ option ++ "," ++ value1 ++ "," ++ value2
  m.run command kwargs

/-- Python `vsweep`: `command = f"VSWEEP,{vnum},{srca},{trga},{lsmo}"`. -/
def Meshing.vsweep (m : Meshing α β) (vnum srca trga lsmo : String) (kwargs : α) : β :=
  let command := "VSWEEP," ++ vnum ++ "," ++ srca ++ "," ++ trga ++ "," ++ lsmo
  m.run command kwargs

/-- The command shape the specification prescribes for every formatter: the
operation keyword followed by the parameters in declared order, comma-separated
(empty parameters give consecutive commas).  Written from the spec's words, to
be compared with the strings the embedded formatters actually build. -/
def spec_command_format (opcode : String) : List String → String
  | [] => opcode
  | p :: ps => spec_command_format (opcode ++ "," ++ p) ps

/-- A `Meshing` instance whose `run` returns the command string it is given,
used to observe which command string a formatter passes to `run`. -/
def captureMeshing : Meshing Unit String :=
  { run := fun command _ => command }

/-- A scalar JSON / Python value as it occurs in the `hps_config.json` file and
in the resolved submission configuration: string, number, boolean, or
`None`/`null`. -/
inductive JValue where
  | str : String → JValue
  | num : Int → JValue
  | bool : Bool → JValue
  | null : JValue
deriving DecidableEq, Repr

/-- The parsed contents of the flat JSON configuration file: an association
list from key to scalar value. -/
abbrev Config := List (String × JValue)

/-- Modelled from the spec: `get_value_from_json_or_default` is imported from
`ansys.mapdl.core.hpc.pyhps`, which is not among the reviewed sources.  Per the
spec, it resolves the effective value of one parameter: the explicit argument
when one is provided, otherwise the value stored under the given key in the
JSON configuration file when present, otherwise the fixed default.  The parsed
file contents are passed in as `cfg`. -/
def get_value_from_json_or_default (arg : Option JValue) (cfg : Config)
    (key : String) (dflt : JValue) : JValue :=
  match arg with
  | some v => v
  | none =>
    match cfg.lookup key with
    | some v => v
    | none => dflt

/-- The keyword arguments `submit` passes to `create_pymapdl_pyhps_job`, in the
order of the call in `hpc.py`. -/
structure JobArgs where
  main_file : String
  name : JValue
  url : JValue
  user : JValue
  password : JValue
  python : JValue
  output_files : Option String
  shell_file : Option String
  requirements_file : Option String
  extra_files : Option String
  config_file : String
  num_cores : JValue
  memory : JValue
  disk_space : JValue
  exclusive : JValue
  max_execution_time : JValue
deriving DecidableEq, Repr

/-- The observable side effects of one `submit` invocation, in program order:
the call to the external job factory, the optional overwrite of the
configuration file (recorded with the complete contents written), and the
optional call to the external completion check. -/
inductive Event where
  | createJob : JobArgs → Event
  | writeConfig : String → Config → Event
  | waitForCompletion : Event
deriving DecidableEq, Repr

/-- Modelled from the spec: `os.path.join(os.getcwd(), "hps_config.json")` —
the default configuration file is the one named `"hps_config.json"` in the
current working directory.  For the relative file name used here, POSIX
`os.path.join` appends the name after a separator (adding none if the first
component already ends in one). -/
def os_path_join (a b : String) : String :=
  if a = "" then b
  else if a.data.getLast? = some '/' then a ++ b
  else a ++ "/" ++ b

/-- Python truthiness of the `--wait` option as `click` delivers it: the option
is declared with `type=str, default=None`, so the function receives `None`
(absent) or the literal string given on the command line; `if wait:` is true
exactly for a non-empty string. -/
def pyTruthy : Option String → Bool
  | none => false
  | some s => s != ""

/-- The parameter-resolution block of `submit` (`hpc.py` lines 188–204) plus the
factory call's argument list (lines 206–223): each of the ten submission
parameters goes through `get_value_from_json_or_default` with its key and fixed
default, while `main_file`, the four file options and `config_file` are passed
through unchanged. -/
def resolvedArgs (main_file : String)
    (name url user password python : Option JValue)
    (output_files shell_file requirements_file extra_files : Option String)
    (config_file : String)
    (num_cores memory disk_space exclusive max_execution_time : Option JValue)
    (cfg : Config) : JobArgs :=
  { main_file := main_file
    name := get_value_from_json_or_default name cfg "name" (JValue.str "My PyMAPDL job")
    url := get_value_from_json_or_default url cfg "url" JValue.null
    user := get_value_from_json_or_default user cfg "user" JValue.null
    password := get_value_from_json_or_default password cfg "password" JValue.null
    python := get_value_from_json_or_default python cfg "python" (JValue.num 3)
    output_files := output_files
    shell_file := shell_file
    requirements_file := requirements_file
    extra_files := extra_files
    config_file := config_file
    num_cores := get_value_from_json_or_default num_cores cfg "num_cores" (JValue.num 1)
    memory := get_value_from_json_or_default memory cfg "memory" (JValue.num 100)
    disk_space := get_value_from_json_or_default disk_space cfg "disk_space" (JValue.num 100)
    exclusive := get_value_from_json_or_default exclusive cfg "exclusive" (JValue.bool false)
    max_execution_time := get_value_from_json_or_default max_execution_time cfg "max_execution_time" (JValue.num 1000) }

/-- The `config` dict that `submit` writes with `json.dump` when
`save_config_file` is set (`hpc.py` lines 226–237), in the order the source
builds it: exactly the ten resolved values and nothing else. -/
def resolvedPairs (a : JobArgs) : Config :=
  [("url", a.url), ("user", a.user), ("password", a.password),
   ("python", a.python), ("name", a.name), ("num_cores", a.num_cores),
   ("memory", a.memory), ("disk_space", a.disk_space),
   ("exclusive", a.exclusive), ("max_execution_time", a.max_execution_time)]

/-- The `submit` CLI command (`hpc.py`).  CLI parameters appear in the order of
the Python function signature; `Option` models `click`'s `None` for an absent
option.  The external effects are injected: `readConfig` models the JSON read
of the configuration file, `create_pymapdl_pyhps_job` the external job factory
and `wait_for_completion` the external polling call, each either returning a
value or raising (`Except.error`); the body never catches, so every error
propagates.  The successful result is the ordered list of observable events.
The file write itself (`open(config_file, "w")` + `json.dump`) is recorded as a
`writeConfig` event carrying the complete new file contents — the `"w"` mode
truncates, so the previous contents do not survive. -/
def submit (Err Proj : Type) (main_file : String)
    (name url user password python : Option JValue)
    (output_files shell_file requirements_file extra_files : Option String)
    (config_file : Option String)
    (num_cores memory disk_space exclusive max_execution_time : Option JValue)
    (wait : Option String) (save_config_file : Bool)
    (cwd : String)
    (readConfig : String → Except Err Config)
    (create_pymapdl_pyhps_job : JobArgs → Except Err Proj)
    (wait_for_completion : Proj → Except Err Unit) :
    Except Err (List Event) :=
  let config_file :=
    match config_file with
    | none => os_path_join cwd "hps_config.json"
    | some f => f
  match readConfig config_file with
  | Except.error e => Except.error e
  | Except.ok cfg =>
    let args := resolvedArgs main_file name url user password python
      output_files shell_file requirements_file extra_files config_file
      num_cores memory disk_space exclusive max_execution_time cfg
    match create_pymapdl_pyhps_job args with
    | Except.error e => Except.error e
    | Except.ok proj =>
      let events := [Event.createJob args]
      let events :=
        if save_config_file then
          events ++ [Event.writeConfig config_file (resolvedPairs args)]
        else events
      if pyTruthy wait then
        match wait_for_completion proj with
        | Except.error e => Except.error e
        | Except.ok _ => Except.ok (events ++ [Event.waitForCompletion])
      else Except.ok events


/-- C1 counterexample: the claim as stated fails at `latt` — with every parameter
defaulted the command string passed to `run` is `"LATT,,,,,,,"` (seven commas),
not the `"LATT,,,,,,"` (six commas) that the uniform `OPCODE,p1,...,pn` format
prescribes for six parameters. -/
theorem claim_C1_counterexample_latt :
    captureMeshing.latt "" "" "" "" "" "" ()
      ≠ spec_command_format "LATT" ["", "", "", "", "", ""] := by decide

/-- C1 (amended): for every command-formatter method of the `Meshing` class other
than `latt` and `clrmshln`, the command string passed to `run` is exactly the
operation keyword followed by the parameters in declared order, comma-separated,
with empty strings for defaulted parameters; `latt` additionally inserts an
always-empty field after `type_`, `clrmshln` (which has no parameters) passes
`"CLRMSHLN,"` with a trailing comma, and `vmesh` with `nv1 = "1"` and all other
parameters defaulted passes `"VMESH,1,,"`. -/
theorem claim_C1_formatter_command_strings :
    ∀ (α β : Type) (m : Meshing α β) (k : α),
      (∀ na1 na2, m.accat na1 na2 k
        = m.run (spec_command_format "ACCAT" [na1, na2]) k)
      ∧ (∀ na1 na2 ninc, m.aclear na1 na2 ninc k
        = m.run (spec_command_format "ACLEAR" [na1, na2, ninc]) k)
      ∧ (∀ anum size, m.aesize anum size k
        = m.run (spec_command_format "AESIZE" [anum, size]) k)
      ∧ (∀ area kp1 kp2 kp3 kp4, m.amap area kp1 kp2 kp3 kp4 k
        = m.run (spec_command_format "AMAP" [area, kp1, kp2, kp3, kp4]) k)
      ∧ (∀ na1 na2 ninc, m.amesh na1 na2 ninc k
        = m.run (spec_command_format "AMESH" [na1, na2, ninc]) k)
      ∧ (∀ na1 na2 ninc level depth post retain, m.arefine na1 na2 ninc level depth post retain k
        = m.run (spec_command_format "AREFINE" [na1, na2, ninc, level, depth, post, retain]) k)
      ∧ (∀ comp, m.chkmsh comp k
        = m.run (spec_command_format "CHKMSH" [comp]) k)
      ∧ (m.clrmshln k = m.run "CLRMSHLN," k)
      ∧ (∀ lab toler kcn dx dy dz knonrot, m.cpcyc lab toler kcn dx dy dz knonrot k
        = m.run (spec_command_format "CPCYC" [lab, toler, kcn, dx, dy, dz, knonrot]) k)
      ∧ (∀ grp1 grp2 grp3, m.czdel grp1 grp2 grp3 k
        = m.run (spec_command_format "CZDEL" [grp1, grp2, grp3]) k)
      ∧ (∀ ecomps1 ecomps2 kcn kdir value cztol, m.czmesh ecomps1 ecomps2 kcn kdir value cztol k
        = m.run (spec_command_format "CZMESH" [ecomps1, ecomps2, kcn, kdir, value, cztol]) k)
      ∧ (∀ minl minh mxel angl angh edgmn edgmx adjf adjm, m.desize minl minh mxel angl angh edgmn edgmx adjf adjm k
        = m.run (spec_command_format "DESIZE" [minl, minh, mxel, angl, angh, edgmn, edgmx, adjf, adjm]) k)
      ∧ (∀ etype dir_ toler, m.eorient etype dir_ toler k
        = m.run (spec_command_format "EORIENT" [etype, dir_, toler]) k)
      ∧ (∀ ne1 ne2 ninc level depth post retain, m.erefine ne1 ne2 ninc level depth post retain k
        = m.run (spec_command_format "EREFINE" [ne1, ne2, ninc, level, depth, post, retain]) k)
      ∧ (∀ size ndiv, m.esize size ndiv k
        = m.run (spec_command_format "ESIZE" [size, ndiv]) k)
      ∧ (∀ kcn, m.esys kcn k
        = m.run (spec_command_format "ESYS" [kcn]) k)
      ∧ (∀ keep, m.fvmesh keep k
        = m.run (spec_command_format "FVMESH" [keep]) k)
      ∧ (∀ lfiber xref yref rotx0 roty0, m.gsgdata lfiber xref yref rotx0 roty0 k
        = m.run (spec_command_format "GSGDATA" [lfiber, xref, yref, rotx0, roty0]) k)
      ∧ (∀ laky nsla ntla kcn dx dy dz tol, m.imesh laky nsla ntla kcn dx dy dz tol k
        = m.run (spec_command_format "IMESH" [laky, nsla, ntla, kcn, dx, dy, dz, tol]) k)
      ∧ (∀ mat real type_ esys, m.katt mat real type_ esys k
        = m.run (spec_command_format "KATT" [mat, real, type_, esys]) k)
      ∧ (∀ np1 np2 ninc, m.kclear np1 np2 ninc k
        = m.run (spec_command_format "KCLEAR" [np1, np2, ninc]) k)
      ∧ (∀ npt size fact1 fact2, m.kesize npt size fact1 fact2 k
        = m.run (spec_command_format "KESIZE" [npt, size, fact1, fact2]) k)
      ∧ (∀ np1 np2 ninc, m.kmesh np1 np2 ninc k
        = m.run (spec_command_format "KMESH" [np1, np2, ninc]) k)
      ∧ (∀ np1 np2 ninc level depth post retain, m.krefine np1 np2 ninc level depth post retain k
        = m.run (spec_command_format "KREFINE" [np1, np2, ninc, level, depth, post, retain]) k)
      ∧ (∀ npt delr kctip nthet rrat, m.kscon npt delr kctip nthet rrat k
        = m.run (spec_command_format "KSCON" [npt, delr, kctip, nthet, rrat]) k)
      ∧ (∀ mat real type_ kb ke secnum, m.latt mat real type_ kb ke secnum k
        = m.run (spec_command_format "LATT" [mat, real, type_, "", kb, ke, secnum]) k)
      ∧ (∀ nl1 nl2, m.lccat nl1 nl2 k
        = m.run (spec_command_format "LCCAT" [nl1, nl2]) k)
      ∧ (∀ nl1 nl2 ninc, m.lclear nl1 nl2 ninc k
        = m.run (spec_command_format "LCLEAR" [nl1, nl2, ninc]) k)
      ∧ (∀ nl1 size angsiz ndiv space kforc layer1 layer2 kyndiv, m.lesize nl1 size angsiz ndiv space kforc layer1 layer2 kyndiv k
        = m.run (spec_command_format "LESIZE" [nl1, size, angsiz, ndiv, space, kforc, layer1, layer2, kyndiv]) k)
      ∧ (∀ nl1 nl2 ninc, m.lmesh nl1 nl2 ninc k
        = m.run (spec_command_format "LMESH" [nl1, nl2, ninc]) k)
      ∧ (∀ nl1 nl2 ninc level depth post retain, m.lrefine nl1 nl2 ninc level depth post retain k
        = m.run (spec_command_format "LREFINE" [nl1, nl2, ninc, level, depth, post, retain]) k)
      ∧ (∀ mat, m.mat mat k
        = m.run (spec_command_format "MAT" [mat]) k)
      ∧ (∀ lab, m.mcheck lab k
        = m.run (spec_command_format "MCHECK" [lab]) k)
      ∧ (∀ lab, m.modmsh lab k
        = m.run (spec_command_format "MODMSH" [lab]) k)
      ∧ (∀ lab value, m.mopt lab value k
        = m.run (spec_command_format "MOPT" [lab, value]) k)
      ∧ (∀ key dimension, m.mshape key dimension k
        = m.run (spec_command_format "MSHAPE" [key, dimension]) k)
      ∧ (∀ keyla laptrn lacopy kcn dx dy dz tol low high, m.mshcopy keyla laptrn lacopy kcn dx dy dz tol low high k
        = m.run (spec_command_format "MSHCOPY" [keyla, laptrn, lacopy, kcn, dx, dy, dz, tol, low, high]) k)
      ∧ (∀ key, m.mshkey key k
        = m.run (spec_command_format "MSHKEY" [key]) k)
      ∧ (∀ key, m.mshmid key k
        = m.run (spec_command_format "MSHMID" [key]) k)
      ∧ (∀ key, m.mshpattern key k
        = m.run (spec_command_format "MSHPATTERN" [key]) k)
      ∧ (∀ nn1 nn2 ninc level depth post retain, m.nrefine nn1 nn2 ninc level depth post retain k
        = m.run (spec_command_format "NREFINE" [nn1, nn2, ninc, level, depth, post, retain]) k)
      ∧ (∀ secid name p0 egroup num kcn kdir value ndplane pstol pstype ecomp ncomp, m.psmesh secid name p0 egroup num kcn kdir value ndplane pstol pstype ecomp ncomp k
        = m.run (spec_command_format "PSMESH" [secid, name, p0, egroup, num, kcn, kdir, value, ndplane, pstol, pstype, ecomp, ncomp]) k)
      ∧ (∀ nset, m.real nset k
        = m.run (spec_command_format "REAL" [nset]) k)
      ∧ (∀ par iloc jloc kloc lloc, m.rthick par iloc jloc kloc lloc k
        = m.run (spec_command_format "RTHICK" [par, iloc, jloc, kloc, lloc]) k)
      ∧ (∀ lab value1 value2, m.shpp lab value1 value2 k
        = m.run (spec_command_format "SHPP" [lab, value1, value2]) k)
      ∧ (∀ sizlvl fac expnd trans angl angh gratio smhlc smanc mxitr sprx, m.smrtsize sizlvl fac expnd trans angl angh gratio smhlc smanc mxitr sprx k
        = m.run (spec_command_format "SMRTSIZE" [sizlvl, fac, expnd, trans, angl, angh, gratio, smhlc, smanc, mxitr, sprx]) k)
      ∧ (∀ ename1 ename2 etype2, m.tchg ename1 ename2 etype2 k
        = m.run (spec_command_format "TCHG" [ename1, ename2, etype2]) k)
      ∧ (∀ elem chgbnd implevel, m.timp elem chgbnd implevel k
        = m.run (spec_command_format "TIMP" [elem, chgbnd, implevel]) k)
      ∧ (∀ itype, m.type itype k
        = m.run (spec_command_format "TYPE" [itype]) k)
      ∧ (∀ mat real type_ esys secnum, m.vatt mat real type_ esys secnum k
        = m.run (spec_command_format "VATT" [mat, real, type_, esys, secnum]) k)
      ∧ (∀ nv1 nv2 ninc, m.vclear nv1 nv2 ninc k
        = m.run (spec_command_format "VCLEAR" [nv1, nv2, ninc]) k)
      ∧ (∀ vol chgbnd implevel, m.vimp vol chgbnd implevel k
        = m.run (spec_command_format "VIMP" [vol, chgbnd, implevel]) k)
      ∧ (∀ nv1 nv2 ninc, m.vmesh nv1 nv2 ninc k
        = m.run (spec_command_format "VMESH" [nv1, nv2, ninc]) k)
      ∧ (∀ vnum option value1 value2, m.veorient vnum option value1 value2 k
        = m.run (spec_command_format "VEORIENT" [vnum, option, value1, value2]) k)
      ∧ (∀ vnum srca trga lsmo, m.vsweep vnum srca trga lsmo k
        = m.run (spec_command_format "VSWEEP" [vnum, srca, trga, lsmo]) k)
      ∧ (captureMeshing.vmesh "1" "" "" () = "VMESH,1,,") := by
  intro α β m k
  refine ⟨?_, ?_, ?_, ?_, ?_, ?_, ?_, ?_, ?_, ?_, ?_, ?_, ?_, ?_, ?_, ?_, ?_, ?_, ?_, ?_, ?_, ?_, ?_, ?_, ?_, ?_, ?_, ?_, ?_, ?_, ?_, ?_, ?_, ?_, ?_, ?_, ?_, ?_, ?_, ?_, ?_, ?_, ?_, ?_, ?_, ?_, ?_, ?_, ?_, ?_, ?_, ?_, ?_, ?_, ?_, ?_⟩
  all_goals intros
  all_goals first
    | rfl
    | simp [Meshing.latt, spec_command_format, String.append_assoc, String.append_empty]

/-- C4: every command-formatter method forwards the caller-supplied keyword
options unchanged to the single underlying `run` call and returns `run`'s result
unchanged: for any `run` capability, any keyword-option bag `k` and any
parameters, the method's result is exactly `run` applied to the built command
string and to `k` itself. -/
theorem claim_C4_kwargs_and_result_passthrough :
    ∀ (α β : Type) (m : Meshing α β) (k : α),
      (∀ na1 na2, m.accat na1 na2 k
        = m.run ("ACCAT," ++ na1 ++ "," ++ na2) k)
      ∧ (∀ na1 na2 ninc, m.aclear na1 na2 ninc k
        = m.run ("ACLEAR," ++ na1 ++ "," ++ na2 ++ "," ++ ninc) k)
      ∧ (∀ anum size, m.aesize anum size k
        = m.run ("AESIZE," ++ anum ++ "," ++ size) k)
      ∧ (∀ area kp1 kp2 kp3 kp4, m.amap area kp1 kp2 kp3 kp4 k
        = m.run ("AMAP," ++ area ++ "," ++ kp1 ++ "," ++ kp2 ++ "," ++ kp3 ++ "," ++ kp4) k)
      ∧ (∀ na1 na2 ninc, m.amesh na1 na2 ninc k
        = m.run ("AMESH," ++ na1 ++ "," ++ na2 ++ "," ++ ninc) k)
      ∧ (∀ na1 na2 ninc level depth post retain, m.arefine na1 na2 ninc level depth post retain k
        = m.run ("AREFINE," ++ na1 ++ "," ++ na2 ++ "," ++ ninc ++ "," ++ level ++ "," ++ depth ++ "," ++ post ++ "," ++ retain) k)
      ∧ (∀ comp, m.chkmsh comp k
        = m.run ("CHKMSH," ++ comp) k)
      ∧ (m.clrmshln k = m.run "CLRMSHLN," k)
      ∧ (∀ lab toler kcn dx dy dz knonrot, m.cpcyc lab toler kcn dx dy dz knonrot k
        = m.run ("CPCYC," ++ lab ++ "," ++ toler ++ "," ++ kcn ++ "," ++ dx ++ "," ++ dy ++ "," ++ dz ++ "," ++ knonrot) k)
      ∧ (∀ grp1 grp2 grp3, m.czdel grp1 grp2 grp3 k
        = m.run ("CZDEL," ++ grp1 ++ "," ++ grp2 ++ "," ++ grp3) k)
      ∧ (∀ ecomps1 ecomps2 kcn kdir value cztol, m.czmesh ecomps1 ecomps2 kcn kdir value cztol k
        = m.run ("CZMESH," ++ ecomps1 ++ "," ++ ecomps2 ++ "," ++ kcn ++ "," ++ kdir ++ "," ++ value ++ "," ++ cztol) k)
      ∧ (∀ minl minh mxel angl angh edgmn edgmx adjf adjm, m.desize minl minh mxel angl angh edgmn edgmx adjf adjm k
        = m.run ("DESIZE," ++ minl ++ "," ++ minh ++ "," ++ mxel ++ "," ++ angl ++ "," ++ angh ++ "," ++ edgmn ++ "," ++ edgmx ++ "," ++ adjf ++ "," ++ adjm) k)
      ∧ (∀ etype dir_ toler, m.eorient etype dir_ toler k
        = m.run ("EORIENT," ++ etype ++ "," ++ dir_ ++ "," ++ toler) k)
      ∧ (∀ ne1 ne2 ninc level depth post retain, m.erefine ne1 ne2 ninc level depth post retain k
        = m.run ("EREFINE," ++ ne1 ++ "," ++ ne2 ++ "," ++ ninc ++ "," ++ level ++ "," ++ depth ++ "," ++ post ++ "," ++ retain) k)
      ∧ (∀ size ndiv, m.esize size ndiv k
        = m.run ("ESIZE," ++ size ++ "," ++ ndiv) k)
      ∧ (∀ kcn, m.esys kcn k
        = m.run ("ESYS," ++ kcn) k)
      ∧ (∀ keep, m.fvmesh keep k
        = m.run ("FVMESH," ++ keep) k)
      ∧ (∀ lfiber xref yref rotx0 roty0, m.gsgdata lfiber xref yref rotx0 roty0 k
        = m.run ("GSGDATA," ++ lfiber ++ "," ++ xref ++ "," ++ yref ++ "," ++ rotx0 ++ "," ++ roty0) k)
      ∧ (∀ laky nsla ntla kcn dx dy dz tol, m.imesh laky nsla ntla kcn dx dy dz tol k
        = m.run ("IMESH," ++ laky ++ "," ++ nsla ++ "," ++ ntla ++ "," ++ kcn ++ "," ++ dx ++ "," ++ dy ++ "," ++ dz ++ "," ++ tol) k)
      ∧ (∀ mat real type_ esys, m.katt mat real type_ esys k
        = m.run ("KATT," ++ mat ++ "," ++ real ++ "," ++ type_ ++ "," ++ esys) k)
      ∧ (∀ np1 np2 ninc, m.kclear np1 np2 ninc k
        = m.run ("KCLEAR," ++ np1 ++ "," ++ np2 ++ "," ++ ninc) k)
      ∧ (∀ npt size fact1 fact2, m.kesize npt size fact1 fact2 k
        = m.run ("KESIZE," ++ npt ++ "," ++ size ++ "," ++ fact1 ++ "," ++ fact2) k)
      ∧ (∀ np1 np2 ninc, m.kmesh np1 np2 ninc k
        = m.run ("KMESH," ++ np1 ++ "," ++ np2 ++ "," ++ ninc) k)
      ∧ (∀ np1 np2 ninc level depth post retain, m.krefine np1 np2 ninc level depth post retain k
        = m.run ("KREFINE," ++ np1 ++ "," ++ np2 ++ "," ++ ninc ++ "," ++ level ++ "," ++ depth ++ "," ++ post ++ "," ++ retain) k)
      ∧ (∀ npt delr kctip nthet rrat, m.kscon npt delr kctip nthet rrat k
        = m.run ("KSCON," ++ npt ++ "," ++ delr ++ "," ++ kctip ++ "," ++ nthet ++ "," ++ rrat) k)
      ∧ (∀ mat real type_ kb ke secnum, m.latt mat real type_ kb ke secnum k
        = m.run ("LATT," ++ mat ++ "," ++ real ++ "," ++ type_ ++ ",," ++ kb ++ "," ++ ke ++ "," ++ secnum) k)
      ∧ (∀ nl1 nl2, m.lccat nl1 nl2 k
        = m.run ("LCCAT," ++ nl1 ++ "," ++ nl2) k)
      ∧ (∀ nl1 nl2 ninc, m.lclear nl1 nl2 ninc k
        = m.run ("LCLEAR," ++ nl1 ++ "," ++ nl2 ++ "," ++ ninc) k)
      ∧ (∀ nl1 size angsiz ndiv space kforc layer1 layer2 kyndiv, m.lesize nl1 size angsiz ndiv space kforc layer1 layer2 kyndiv k
        = m.run ("LESIZE," ++ nl1 ++ "," ++ size ++ "," ++ angsiz ++ "," ++ ndiv ++ "," ++ space ++ "," ++ kforc ++ "," ++ layer1 ++ "," ++ layer2 ++ "," ++ kyndiv) k)
      ∧ (∀ nl1 nl2 ninc, m.lmesh nl1 nl2 ninc k
        = m.run ("LMESH," ++ nl1 ++ "," ++ nl2 ++ "," ++ ninc) k)
      ∧ (∀ nl1 nl2 ninc level depth post retain, m.lrefine nl1 nl2 ninc level depth post retain k
        = m.run ("LREFINE," ++ nl1 ++ "," ++ nl2 ++ "," ++ ninc ++ "," ++ level ++ "," ++ depth ++ "," ++ post ++ "," ++ retain) k)
      ∧ (∀ mat, m.mat mat k
        = m.run ("MAT," ++ mat) k)
      ∧ (∀ lab, m.mcheck lab k
        = m.run ("MCHECK," ++ lab) k)
      ∧ (∀ lab, m.modmsh lab k
        = m.run ("MODMSH," ++ lab) k)
      ∧ (∀ lab value, m.mopt lab value k
        = m.run ("MOPT," ++ lab ++ "," ++ value) k)
      ∧ (∀ key dimension, m.mshape key dimension k
        = m.run ("MSHAPE," ++ key ++ "," ++ dimension) k)
      ∧ (∀ keyla laptrn lacopy kcn dx dy dz tol low high, m.mshcopy keyla laptrn lacopy kcn dx dy dz tol low high k
        = m.run ("MSHCOPY," ++ keyla ++ "," ++ laptrn ++ "," ++ lacopy ++ "," ++ kcn ++ "," ++ dx ++ "," ++ dy ++ "," ++ dz ++ "," ++ tol ++ "," ++ low ++ "," ++ high) k)
      ∧ (∀ key, m.mshkey key k
        = m.run ("MSHKEY," ++ key) k)
      ∧ (∀ key, m.mshmid key k
        = m.run ("MSHMID," ++ key) k)
      ∧ (∀ key, m.mshpattern key k
        = m.run ("MSHPATTERN," ++ key) k)
      ∧ (∀ nn1 nn2 ninc level depth post retain, m.nrefine nn1 nn2 ninc level depth post retain k
        = m.run ("NREFINE," ++ nn1 ++ "," ++ nn2 ++ "," ++ ninc ++ "," ++ level ++ "," ++ depth ++ "," ++ post ++ "," ++ retain) k)
      ∧ (∀ secid name p0 egroup num kcn kdir value ndplane pstol pstype ecomp ncomp, m.psmesh secid name p0 egroup num kcn kdir value ndplane pstol pstype ecomp ncomp k
        = m.run ("PSMESH," ++ secid ++ "," ++ name ++ "," ++ p0 ++ "," ++ egroup ++ "," ++ num ++ "," ++ kcn ++ "," ++ kdir ++ "," ++ value ++ "," ++ ndplane ++ "," ++ pstol ++ "," ++ pstype ++ "," ++ ecomp ++ "," ++ ncomp) k)
      ∧ (∀ nset, m.real nset k
        = m.run ("REAL," ++ nset) k)
      ∧ (∀ par iloc jloc kloc lloc, m.rthick par iloc jloc kloc lloc k
        = m.run ("RTHICK," ++ par ++ "," ++ iloc ++ "," ++ jloc ++ "," ++ kloc ++ "," ++ lloc) k)
      ∧ (∀ lab value1 value2, m.shpp lab value1 value2 k
        = m.run ("SHPP," ++ lab ++ "," ++ value1 ++ "," ++ value2) k)
      ∧ (∀ sizlvl fac expnd trans angl angh gratio smhlc smanc mxitr sprx, m.smrtsize sizlvl fac expnd trans angl angh gratio smhlc smanc mxitr sprx k
        = m.run ("SMRTSIZE," ++ sizlvl ++ "," ++ fac ++ "," ++ expnd ++ "," ++ trans ++ "," ++ angl ++ "," ++ angh ++ "," ++ gratio ++ "," ++ smhlc ++ "," ++ smanc ++ "," ++ mxitr ++ "," ++ sprx) k)
      ∧ (∀ ename1 ename2 etype2, m.tchg ename1 ename2 etype2 k
        = m.run ("TCHG," ++ ename1 ++ "," ++ ename2 ++ "," ++ etype2) k)
      ∧ (∀ elem chgbnd implevel, m.timp elem chgbnd implevel k
        = m.run ("TIMP," ++ elem ++ "," ++ chgbnd ++ "," ++ implevel) k)
      ∧ (∀ itype, m.type itype k
        = m.run ("TYPE," ++ itype) k)
      ∧ (∀ mat real type_ esys secnum, m.vatt mat real type_ esys secnum k
        = m.run ("VATT," ++ mat ++ "," ++ real ++ "," ++ type_ ++ "," ++ esys ++ "," ++ secnum) k)
      ∧ (∀ nv1 nv2 ninc, m.vclear nv1 nv2 ninc k
        = m.run ("VCLEAR," ++ nv1 ++ "," ++ nv2 ++ "," ++ ninc) k)
      ∧ (∀ vol chgbnd implevel, m.vimp vol chgbnd implevel k
        = m.run ("VIMP," ++ vol ++ "," ++ chgbnd ++ "," ++ implevel) k)
      ∧ (∀ nv1 nv2 ninc, m.vmesh nv1 nv2 ninc k
        = m.run ("VMESH," ++ nv1 ++ "," ++ nv2 ++ "," ++ ninc) k)
      ∧ (∀ vnum option value1 value2, m.veorient vnum option value1 value2 k
        = m.run ("VEORIENT," ++ vnum ++ "," ++ option ++ "," ++ value1 ++ "," ++ value2) k)
      ∧ (∀ vnum srca trga lsmo, m.vsweep vnum srca trga lsmo k
        = m.run ("VSWEEP," ++ vnum ++ "," ++ srca ++ "," ++ trga ++ "," ++ lsmo) k) := by
  intro α β m k
  refine ⟨?_, ?_, ?_, ?_, ?_, ?_, ?_, ?_, ?_, ?_, ?_, ?_, ?_, ?_, ?_, ?_, ?_, ?_, ?_, ?_, ?_, ?_, ?_, ?_, ?_, ?_, ?_, ?_, ?_, ?_, ?_, ?_, ?_, ?_, ?_, ?_, ?_, ?_, ?_, ?_, ?_, ?_, ?_, ?_, ?_, ?_, ?_, ?_, ?_, ?_, ?_, ?_, ?_, ?_, ?_⟩
  all_goals intros
  all_goals rfl

/-- C8: for all argument values `latt` passes to `run` the string
`"LATT,{mat},{real},{type_},,{kb},{ke},{secnum}"` — the uniform comma-separated
format with an always-empty fourth field, so `kb`, `ke` and `secnum` occupy
protocol positions 5 through 7 rather than immediately following `type_`; with
all six parameters defaulted the command string is `"LATT,,,,,,,"`. -/
theorem claim_C8_latt_extra_field :
    (∀ (α β : Type) (m : Meshing α β) (k : α) (mat real type_ kb ke secnum : String),
        m.latt mat real type_ kb ke secnum k
            = m.run ("LATT," ++ mat ++ "," ++ real ++ "," ++ type_ ++ ",," ++ kb ++ "," ++ ke ++ "," ++ secnum) k
          ∧ m.latt mat real type_ kb ke secnum k
            = m.run (spec_command_format "LATT" [mat, real, type_, "", kb, ke, secnum]) k)
    ∧ captureMeshing.latt "" "" "" "" "" "" () = "LATT,,,,,,," := by
  refine ⟨fun α β m k mat real type_ kb ke secnum => ⟨rfl, ?_⟩, rfl⟩
  simp [Meshing.latt, spec_command_format, String.append_assoc, String.append_empty]

/-- C6: no layer catches, translates or retries failures.  A `run` capability
that raises makes every command-formatter method raise that same error, and
`submit` returns unchanged any error raised by the JSON configuration read, the
job-submission factory, or the completion poll. -/
theorem claim_C6_error_propagation :
    ∀ (E R : Type) (e : E),
      ((∀ na1 na2, (Meshing.mk (fun _ _ => Except.error e) : Meshing Unit (Except E R)).accat na1 na2 () = Except.error e)
      ∧ (∀ na1 na2 ninc, (Meshing.mk (fun _ _ => Except.error e) : Meshing Unit (Except E R)).aclear na1 na2 ninc () = Except.error e)
      ∧ (∀ anum size, (Meshing.mk (fun _ _ => Except.error e) : Meshing Unit (Except E R)).aesize anum size () = Except.error e)
      ∧ (∀ area kp1 kp2 kp3 kp4, (Meshing.mk (fun _ _ => Except.error e) : Meshing Unit (Except E R)).amap area kp1 kp2 kp3 kp4 () = Except.error e)
      ∧ (∀ na1 na2 ninc, (Meshing.mk (fun _ _ => Except.error e) : Meshing Unit (Except E R)).amesh na1 na2 ninc () = Except.error e)
      ∧ (∀ na1 na2 ninc level depth post retain, (Meshing.mk (fun _ _ => Except.error e) : Meshing Unit (Except E R)).arefine na1 na2 ninc level depth post retain () = Except.error e)
      ∧ (∀ comp, (Meshing.mk (fun _ _ => Except.error e) : Meshing Unit (Except E R)).chkmsh comp () = Except.error e)
      ∧ ((Meshing.mk (fun _ _ => Except.error e) : Meshing Unit (Except E R)).clrmshln () = Except.error e)
      ∧ (∀ lab toler kcn dx dy dz knonrot, (Meshing.mk (fun _ _ => Except.error e) : Meshing Unit (Except E R)).cpcyc lab toler kcn dx dy dz knonrot () = Except.error e)
      ∧ (∀ grp1 grp2 grp3, (Meshing.mk (fun _ _ => Except.error e) : Meshing Unit (Except E R)).czdel grp1 grp2 grp3 () = Except.error e)
      ∧ (∀ ecomps1 ecomps2 kcn kdir value cztol, (Meshing.mk (fun _ _ => Except.error e) : Meshing Unit (Except E R)).czmesh ecomps1 ecomps2 kcn kdir value cztol () = Except.error e)
      ∧ (∀ minl minh mxel angl angh edgmn edgmx adjf adjm, (Meshing.mk (fun _ _ => Except.error e) : Meshing Unit (Except E R)).desize minl minh mxel angl angh edgmn edgmx adjf adjm () = Except.error e)
      ∧ (∀ etype dir_ toler, (Meshing.mk (fun _ _ => Except.error e) : Meshing Unit (Except E R)).eorient etype dir_ toler () = Except.error e)
      ∧ (∀ ne1 ne2 ninc level depth post retain, (Meshing.mk (fun _ _ => Except.error e) : Meshing Unit (Except E R)).erefine ne1 ne2 ninc level depth post retain () = Except.error e)
      ∧ (∀ size ndiv, (Meshing.mk (fun _ _ => Except.error e) : Meshing Unit (Except E R)).esize size ndiv () = Except.error e)
      ∧ (∀ kcn, (Meshing.mk (fun _ _ => Except.error e) : Meshing Unit (Except E R)).esys kcn () = Except.error e)
      ∧ (∀ keep, (Meshing.mk (fun _ _ => Except.error e) : Meshing Unit (Except E R)).fvmesh keep () = Except.error e)
      ∧ (∀ lfiber xref yref rotx0 roty0, (Meshing.mk (fun _ _ => Except.error e) : Meshing Unit (Except E R)).gsgdata lfiber xref yref rotx0 roty0 () = Except.error e)
      ∧ (∀ laky nsla ntla kcn dx dy dz tol, (Meshing.mk (fun _ _ => Except.error e) : Meshing Unit (Except E R)).imesh laky nsla ntla kcn dx dy dz tol () = Except.error e)
      ∧ (∀ mat real type_ esys, (Meshing.mk (fun _ _ => Except.error e) : Meshing Unit (Except E R)).katt mat real type_ esys () = Except.error e)
      ∧ (∀ np1 np2 ninc, (Meshing.mk (fun _ _ => Except.error e) : Meshing Unit (Except E R)).kclear np1 np2 ninc () = Except.error e)
      ∧ (∀ npt size fact1 fact2, (Meshing.mk (fun _ _ => Except.error e) : Meshing Unit (Except E R)).kesize npt size fact1 fact2 () = Except.error e)
      ∧ (∀ np1 np2 ninc, (Meshing.mk (fun _ _ => Except.error e) : Meshing Unit (Except E R)).kmesh np1 np2 ninc () = Except.error e)
      ∧ (∀ np1 np2 ninc level depth post retain, (Meshing.mk (fun _ _ => Except.error e) : Meshing Unit (Except E R)).krefine np1 np2 ninc level depth post retain () = Except.error e)
      ∧ (∀ npt delr kctip nthet rrat, (Meshing.mk (fun _ _ => Except.error e) : Meshing Unit (Except E R)).kscon npt delr kctip nthet rrat () = Except.error e)
      ∧ (∀ mat real type_ kb ke secnum, (Meshing.mk (fun _ _ => Except.error e) : Meshing Unit (Except E R)).latt mat real type_ kb ke secnum () = Except.error e)
      ∧ (∀ nl1 nl2, (Meshing.mk (fun _ _ => Except.error e) : Meshing Unit (Except E R)).lccat nl1 nl2 () = Except.error e)
      ∧ (∀ nl1 nl2 ninc, (Meshing.mk (fun _ _ => Except.error e) : Meshing Unit (Except E R)).lclear nl1 nl2 ninc () = Except.error e)
      ∧ (∀ nl1 size angsiz ndiv space kforc layer1 layer2 kyndiv, (Meshing.mk (fun _ _ => Except.error e) : Meshing Unit (Except E R)).lesize nl1 size angsiz ndiv space kforc layer1 layer2 kyndiv () = Except.error e)
      ∧ (∀ nl1 nl2 ninc, (Meshing.mk (fun _ _ => Except.error e) : Meshing Unit (Except E R)).lmesh nl1 nl2 ninc () = Except.error e)
      ∧ (∀ nl1 nl2 ninc level depth post retain, (Meshing.mk (fun _ _ => Except.error e) : Meshing Unit (Except E R)).lrefine nl1 nl2 ninc level depth post retain () = Except.error e)
      ∧ (∀ mat, (Meshing.mk (fun _ _ => Except.error e) : Meshing Unit (Except E R)).mat mat () = Except.error e)
      ∧ (∀ lab, (Meshing.mk (fun _ _ => Except.error e) : Meshing Unit (Except E R)).mcheck lab () = Except.error e)
      ∧ (∀ lab, (Meshing.mk (fun _ _ => Except.error e) : Meshing Unit (Except E R)).modmsh lab () = Except.error e)
      ∧ (∀ lab value, (Meshing.mk (fun _ _ => Except.error e) : Meshing Unit (Except E R)).mopt lab value () = Except.error e)
      ∧ (∀ key dimension, (Meshing.mk (fun _ _ => Except.error e) : Meshing Unit (Except E R)).mshape key dimension () = Except.error e)
      ∧ (∀ keyla laptrn lacopy kcn dx dy dz tol low high, (Meshing.mk (fun _ _ => Except.error e) : Meshing Unit (Except E R)).mshcopy keyla laptrn lacopy kcn dx dy dz tol low high () = Except.error e)
      ∧ (∀ key, (Meshing.mk (fun _ _ => Except.error e) : Meshing Unit (Except E R)).mshkey key () = Except.error e)
      ∧ (∀ key, (Meshing.mk (fun _ _ => Except.error e) : Meshing Unit (Except E R)).mshmid key () = Except.error e)
      ∧ (∀ key, (Meshing.mk (fun _ _ => Except.error e) : Meshing Unit (Except E R)).mshpattern key () = Except.error e)
      ∧ (∀ nn1 nn2 ninc level depth post retain, (Meshing.mk (fun _ _ => Except.error e) : Meshing Unit (Except E R)).nrefine nn1 nn2 ninc level depth post retain () = Except.error e)
      ∧ (∀ secid name p0 egroup num kcn kdir value ndplane pstol pstype ecomp ncomp, (Meshing.mk (fun _ _ => Except.error e) : Meshing Unit (Except E R)).psmesh secid name p0 egroup num kcn kdir value ndplane pstol pstype ecomp ncomp () = Except.error e)
      ∧ (∀ nset, (Meshing.mk (fun _ _ => Except.error e) : Meshing Unit (Except E R)).real nset () = Except.error e)
      ∧ (∀ par iloc jloc kloc lloc, (Meshing.mk (fun _ _ => Except.error e) : Meshing Unit (Except E R)).rthick par iloc jloc kloc lloc () = Except.error e)
      ∧ (∀ lab value1 value2, (Meshing.mk (fun _ _ => Except.error e) : Meshing Unit (Except E R)).shpp lab value1 value2 () = Except.error e)
      ∧ (∀ sizlvl fac expnd trans angl angh gratio smhlc smanc mxitr sprx, (Meshing.mk (fun _ _ => Except.error e) : Meshing Unit (Except E R)).smrtsize sizlvl fac expnd trans angl angh gratio smhlc smanc mxitr sprx () = Except.error e)
      ∧ (∀ ename1 ename2 etype2, (Meshing.mk (fun _ _ => Except.error e) : Meshing Unit (Except E R)).tchg ename1 ename2 etype2 () = Except.error e)
      ∧ (∀ elem chgbnd implevel, (Meshing.mk (fun _ _ => Except.error e) : Meshing Unit (Except E R)).timp elem chgbnd implevel () = Except.error e)
      ∧ (∀ itype, (Meshing.mk (fun _ _ => Except.error e) : Meshing Unit (Except E R)).type itype () = Except.error e)
      ∧ (∀ mat real type_ esys secnum, (Meshing.mk (fun _ _ => Except.error e) : Meshing Unit (Except E R)).vatt mat real type_ esys secnum () = Except.error e)
      ∧ (∀ nv1 nv2 ninc, (Meshing.mk (fun _ _ => Except.error e) : Meshing Unit (Except E R)).vclear nv1 nv2 ninc () = Except.error e)
      ∧ (∀ vol chgbnd implevel, (Meshing.mk (fun _ _ => Except.error e) : Meshing Unit (Except E R)).vimp vol chgbnd implevel () = Except.error e)
      ∧ (∀ nv1 nv2 ninc, (Meshing.mk (fun _ _ => Except.error e) : Meshing Unit (Except E R)).vmesh nv1 nv2 ninc () = Except.error e)
      ∧ (∀ vnum option value1 value2, (Meshing.mk (fun _ _ => Except.error e) : Meshing Unit (Except E R)).veorient vnum option value1 value2 () = Except.error e)
      ∧ (∀ vnum srca trga lsmo, (Meshing.mk (fun _ _ => Except.error e) : Meshing Unit (Except E R)).vsweep vnum srca trga lsmo () = Except.error e))
      ∧ (∀ (mf : String) (n u us pw py : Option JValue) (of sf rf ef : Option String)
          (cf : Option String) (nc me ds ex met : Option JValue) (w : Option String)
          (s : Bool) (cwd : String) (factory : JobArgs → Except E R)
          (waitFn : R → Except E Unit),
          submit E R mf n u us pw py of sf rf ef cf nc me ds ex met w s cwd
            (fun _ => Except.error e) factory waitFn = Except.error e)
      ∧ (∀ (mf : String) (n u us pw py : Option JValue) (of sf rf ef : Option String)
          (cf : Option String) (nc me ds ex met : Option JValue) (w : Option String)
          (s : Bool) (cwd : String) (cfg : Config) (waitFn : R → Except E Unit),
          submit E R mf n u us pw py of sf rf ef cf nc me ds ex met w s cwd
            (fun _ => Except.ok cfg) (fun _ => Except.error e) waitFn = Except.error e)
      ∧ (∀ (mf : String) (n u us pw py : Option JValue) (of sf rf ef : Option String)
          (cf : Option String) (nc me ds ex met : Option JValue)
          (s : Bool) (cwd : String) (cfg : Config),
          submit E JobArgs mf n u us pw py of sf rf ef cf nc me ds ex met (some "True") s cwd
            (fun _ => Except.ok cfg) (fun a => Except.ok a) (fun _ => Except.error e)
            = Except.error e) := by
  intro E R e
  refine ⟨⟨?_, ?_, ?_, ?_, ?_, ?_, ?_, ?_, ?_, ?_, ?_, ?_, ?_, ?_, ?_, ?_, ?_, ?_, ?_, ?_, ?_, ?_, ?_, ?_, ?_, ?_, ?_, ?_, ?_, ?_, ?_, ?_, ?_, ?_, ?_, ?_, ?_, ?_, ?_, ?_, ?_, ?_, ?_, ?_, ?_, ?_, ?_, ?_, ?_, ?_, ?_, ?_, ?_, ?_, ?_⟩, ?_, ?_, ?_⟩
  all_goals intros
  all_goals rfl

/-- Characterization of one successful `submit` run with an explicit
configuration file, a successful read of configuration `cfg`, a successful
job factory and a successful completion check: the observable events are the
factory call, then the configuration write when requested, then the completion
wait when requested, in that order. -/
theorem submit_ok_trace {Err : Type} (mf : String)
    (n u us pw py : Option JValue) (of sf rf ef : Option String) (cf : String)
    (nc me ds ex met : Option JValue) (w : Option String) (s : Bool)
    (cwd : String) (cfg : Config) :
    submit Err JobArgs mf n u us pw py of sf rf ef (some cf) nc me ds ex met w s cwd
        (fun _ => Except.ok cfg) (fun a => Except.ok a) (fun _ => Except.ok ())
      = Except.ok
          ((Event.createJob (resolvedArgs mf n u us pw py of sf rf ef cf nc me ds ex met cfg) ::
              (if s then
                [Event.writeConfig cf
                  (resolvedPairs (resolvedArgs mf n u us pw py of sf rf ef cf nc me ds ex met cfg))]
              else []))
            ++ (if pyTruthy w then [Event.waitForCompletion] else [])) := by
  cases s <;> cases h : pyTruthy w <;> simp [submit, h]

/-- C2: in `submit`, each of the ten submission parameters resolves to the
explicit CLI argument when one is provided, otherwise to the value stored under
the corresponding key in the JSON configuration file when present, otherwise to
its fixed default — and the job factory receives exactly these resolved
values. -/
theorem claim_C2_config_resolution_precedence :
    (∀ (cfg : Config) (key : String) (dflt v : JValue),
        get_value_from_json_or_default (some v) cfg key dflt = v)
    ∧ (∀ (cfg : Config) (key : String) (dflt v : JValue), cfg.lookup key = some v →
        get_value_from_json_or_default none cfg key dflt = v)
    ∧ (∀ (cfg : Config) (key : String) (dflt : JValue), cfg.lookup key = none →
        get_value_from_json_or_default none cfg key dflt = dflt)
    ∧ (∀ (mf : String) (n u us pw py : Option JValue) (of sf rf ef : Option String)
        (cf : String) (nc me ds ex met : Option JValue) (cfg : Config),
        (resolvedArgs mf n u us pw py of sf rf ef cf nc me ds ex met cfg).url
            = get_value_from_json_or_default u cfg "url" JValue.null
        ∧ (resolvedArgs mf n u us pw py of sf rf ef cf nc me ds ex met cfg).user
            = get_value_from_json_or_default us cfg "user" JValue.null
        ∧ (resolvedArgs mf n u us pw py of sf rf ef cf nc me ds ex met cfg).password
            = get_value_from_json_or_default pw cfg "password" JValue.null
        ∧ (resolvedArgs mf n u us pw py of sf rf ef cf nc me ds ex met cfg).python
            = get_value_from_json_or_default py cfg "python" (JValue.num 3)
        ∧ (resolvedArgs mf n u us pw py of sf rf ef cf nc me ds ex met cfg).name
            = get_value_from_json_or_default n cfg "name" (JValue.str "My PyMAPDL job")
        ∧ (resolvedArgs mf n u us pw py of sf rf ef cf nc me ds ex met cfg).num_cores
            = get_value_from_json_or_default nc cfg "num_cores" (JValue.num 1)
        ∧ (resolvedArgs mf n u us pw py of sf rf ef cf nc me ds ex met cfg).memory
            = get_value_from_json_or_default me cfg "memory" (JValue.num 100)
        ∧ (resolvedArgs mf n u us pw py of sf rf ef cf nc me ds ex met cfg).disk_space
            = get_value_from_json_or_default ds cfg "disk_space" (JValue.num 100)
        ∧ (resolvedArgs mf n u us pw py of sf rf ef cf nc me ds ex met cfg).exclusive
            = get_value_from_json_or_default ex cfg "exclusive" (JValue.bool false)
        ∧ (resolvedArgs mf n u us pw py of sf rf ef cf nc me ds ex met cfg).max_execution_time
            = get_value_from_json_or_default met cfg "max_execution_time" (JValue.num 1000)
        ∧ (∀ (Err : Type) (cwd : String),
            submit Err JobArgs mf n u us pw py of sf rf ef (some cf) nc me ds ex met
                none false cwd
                (fun _ => Except.ok cfg) (fun a => Except.ok a) (fun _ => Except.ok ())
              = Except.ok
                  [Event.createJob
                    (resolvedArgs mf n u us pw py of sf rf ef cf nc me ds ex met cfg)])) := by
  refine ⟨fun _ _ _ _ => rfl, ?_, ?_, ?_⟩
  · intro cfg key dflt v h
    simp [get_value_from_json_or_default, h]
  · intro cfg key dflt h
    simp [get_value_from_json_or_default, h]
  · intros
    exact ⟨rfl, rfl, rfl, rfl, rfl, rfl, rfl, rfl, rfl, rfl, fun _ _ => rfl⟩

/-- C2 witness, at the spec's own example: with the configuration file holding
`num_cores = 4`, an explicit CLI value `8` wins, no CLI value gives `4`, and
with neither the default `1` is used. -/
theorem claim_C2_witness :
    get_value_from_json_or_default (some (JValue.num 8))
        [("num_cores", JValue.num 4)] "num_cores" (JValue.num 1) = JValue.num 8
    ∧ get_value_from_json_or_default none
        [("num_cores", JValue.num 4)] "num_cores" (JValue.num 1) = JValue.num 4
    ∧ get_value_from_json_or_default none ([] : Config) "num_cores" (JValue.num 1)
        = JValue.num 1 :=
  ⟨claim_C2_config_resolution_precedence.1 _ _ _ _,
   claim_C2_config_resolution_precedence.2.1 _ _ _ _ rfl,
   claim_C2_config_resolution_precedence.2.2.1 _ _ _ rfl⟩

/-- C3: when `submit` runs with `save_config_file` set and the job factory
returns successfully, the configuration file is overwritten with exactly the
ten resolved values used for that submission and nothing else — whatever the
file held before (`cfg`) does not influence the written contents beyond its
role in resolution. -/
theorem claim_C3_save_config_overwrite :
    ∀ (Err Proj : Type) (mf : String) (n u us pw py : Option JValue)
      (of sf rf ef : Option String) (cf : String) (nc me ds ex met : Option JValue)
      (cwd : String) (cfg : Config)
      (readConfig : String → Except Err Config)
      (factory : JobArgs → Except Err Proj) (proj : Proj)
      (waitFn : Proj → Except Err Unit),
      readConfig cf = Except.ok cfg →
      factory (resolvedArgs mf n u us pw py of sf rf ef cf nc me ds ex met cfg)
        = Except.ok proj →
      submit Err Proj mf n u us pw py of sf rf ef (some cf) nc me ds ex met none true cwd
          readConfig factory waitFn
        = Except.ok
            [Event.createJob (resolvedArgs mf n u us pw py of sf rf ef cf nc me ds ex met cfg),
             Event.writeConfig cf
               (resolvedPairs (resolvedArgs mf n u us pw py of sf rf ef cf nc me ds ex met cfg))]
      ∧ resolvedPairs (resolvedArgs mf n u us pw py of sf rf ef cf nc me ds ex met cfg)
          = [("url", get_value_from_json_or_default u cfg "url" JValue.null),
             ("user", get_value_from_json_or_default us cfg "user" JValue.null),
             ("password", get_value_from_json_or_default pw cfg "password" JValue.null),
             ("python", get_value_from_json_or_default py cfg "python" (JValue.num 3)),
             ("name", get_value_from_json_or_default n cfg "name" (JValue.str "My PyMAPDL job")),
             ("num_cores", get_value_from_json_or_default nc cfg "num_cores" (JValue.num 1)),
             ("memory", get_value_from_json_or_default me cfg "memory" (JValue.num 100)),
             ("disk_space", get_value_from_json_or_default ds cfg "disk_space" (JValue.num 100)),
             ("exclusive", get_value_from_json_or_default ex cfg "exclusive" (JValue.bool false)),
             ("max_execution_time",
               get_value_from_json_or_default met cfg "max_execution_time" (JValue.num 1000))] := by
  intro Err Proj mf n u us pw py of sf rf ef cf nc me ds ex met cwd cfg readConfig factory proj waitFn h1 h2
  refine ⟨?_, rfl⟩
  simp [submit, pyTruthy, h1, h2]

/-- C3 witness: a concrete submission over a configuration file previously
holding an unrelated key `"stale"`; the write event carries only the ten
resolved values, so the stale key does not survive. -/
theorem claim_C3_witness :
    submit Unit JobArgs "main.py" none none none none none none none none none
        (some "hps_config.json") none none none none none none true "/w"
        (fun _ => Except.ok [("stale", JValue.num 7)]) (fun a => Except.ok a)
        (fun _ => Except.ok ())
      = Except.ok
          [Event.createJob
            (resolvedArgs "main.py" none none none none none none none none none
              "hps_config.json" none none none none none [("stale", JValue.num 7)]),
           Event.writeConfig "hps_config.json"
             (resolvedPairs
               (resolvedArgs "main.py" none none none none none none none none none
                 "hps_config.json" none none none none none [("stale", JValue.num 7)]))] :=
  (claim_C3_save_config_overwrite Unit JobArgs "main.py" none none none none none
    none none none none "hps_config.json" none none none none none "/w"
    [("stale", JValue.num 7)] (fun _ => Except.ok [("stale", JValue.num 7)])
    (fun a => Except.ok a)
    (resolvedArgs "main.py" none none none none none none none none none
      "hps_config.json" none none none none none [("stale", JValue.num 7)])
    (fun _ => Except.ok ()) rfl rfl).1

/-- C5: with the external reads and the factory succeeding, a truthy `wait`
makes `submit` invoke the external completion check after job creation — the
check is the final event, and the command's outcome is the check's outcome, so
the command does not return before the check does; with `wait` unset the check
is never invoked. -/
theorem claim_C5_wait_blocking :
    ∀ (Err : Type) (mf : String) (n u us pw py : Option JValue)
      (of sf rf ef : Option String) (cf : String) (nc me ds ex met : Option JValue)
      (s : Bool) (cwd : String) (cfg : Config),
      (∀ (w : String), w ≠ "" →
        submit Err JobArgs mf n u us pw py of sf rf ef (some cf) nc me ds ex met
            (some w) s cwd
            (fun _ => Except.ok cfg) (fun a => Except.ok a) (fun _ => Except.ok ())
          = Except.ok
              ((Event.createJob (resolvedArgs mf n u us pw py of sf rf ef cf nc me ds ex met cfg) ::
                  (if s then
                    [Event.writeConfig cf
                      (resolvedPairs (resolvedArgs mf n u us pw py of sf rf ef cf nc me ds ex met cfg))]
                  else []))
                ++ [Event.waitForCompletion]))
      ∧ (∀ (w : String) (e : Err), w ≠ "" →
        submit Err JobArgs mf n u us pw py of sf rf ef (some cf) nc me ds ex met (some w) s cwd
            (fun _ => Except.ok cfg) (fun a => Except.ok a) (fun _ => Except.error e)
          = Except.error e)
      ∧ (submit Err JobArgs mf n u us pw py of sf rf ef (some cf) nc me ds ex met
            none s cwd
            (fun _ => Except.ok cfg) (fun a => Except.ok a) (fun _ => Except.ok ())
          = Except.ok
              (Event.createJob (resolvedArgs mf n u us pw py of sf rf ef cf nc me ds ex met cfg) ::
                (if s then
                  [Event.writeConfig cf
                    (resolvedPairs (resolvedArgs mf n u us pw py of sf rf ef cf nc me ds ex met cfg))]
                else [])))
      ∧ (∀ (a : JobArgs) (p : String) (prs : Config),
          Event.waitForCompletion ∉
            (Event.createJob a :: (if s then [Event.writeConfig p prs] else []))) := by
  intro Err mf n u us pw py of sf rf ef cf nc me ds ex met s cwd cfg
  have hw : ∀ w : String, w ≠ "" → pyTruthy (some w) = true := by
    intro w h
    simpa [pyTruthy] using h
  refine ⟨?_, ?_, ?_, ?_⟩
  · intro w h
    rw [submit_ok_trace, hw w h]
    simp
  · intro w e h
    simp [submit, hw w h]
  · rw [submit_ok_trace]
    simp [pyTruthy]
  · intro a p prs
    cases s <;> simp

/-- C5 witness: a concrete run with `wait = "True"` ends in the completion-wait
event after job creation. -/
theorem claim_C5_witness :
    submit Unit JobArgs "main.py" none none none none none none none none none
        (some "cfg.json") none none none none none (some "True") false "/w"
        (fun _ => Except.ok []) (fun a => Except.ok a) (fun _ => Except.ok ())
      = Except.ok
          [Event.createJob
            (resolvedArgs "main.py" none none none none none none none none none
              "cfg.json" none none none none none []),
           Event.waitForCompletion] :=
  (claim_C5_wait_blocking Unit "main.py" none none none none none none none none none
    "cfg.json" none none none none none false "/w" []).1 "True" (by decide)

/-- C7: with no explicit `config_file` argument the configuration path is the
file named `"hps_config.json"` in the current working directory, and an
explicit argument is used unchanged; observed through a configuration reader
that fails with the path it was asked to read, which `submit` propagates. -/
theorem claim_C7_config_file_path :
    ∀ (Proj : Type) (mf : String) (n u us pw py : Option JValue)
      (of sf rf ef : Option String) (nc me ds ex met : Option JValue)
      (w : Option String) (s : Bool) (cwd : String)
      (factory : JobArgs → Except String Proj) (waitFn : Proj → Except String Unit),
      (submit String Proj mf n u us pw py of sf rf ef none nc me ds ex met w s cwd
          (fun p => Except.error p) factory waitFn
        = Except.error (os_path_join cwd "hps_config.json"))
      ∧ (∀ (f : String), submit String Proj mf n u us pw py of sf rf ef (some f) nc me ds ex met w s cwd
          (fun p => Except.error p) factory waitFn = Except.error f)
      ∧ os_path_join "/home/user" "hps_config.json" = "/home/user/hps_config.json" := by
  intros
  exact ⟨rfl, fun _ => rfl, by decide⟩

/-- C9: the waiting branch of `submit` executes exactly when the `--wait` value
is truthy under Python rules: the option is a string defaulting to `None`, so an
absent or empty value skips the completion check and any non-empty command-line
string — including `"False"` — triggers it. -/
theorem claim_C9_wait_truthiness :
    (∀ (Err : Type) (mf : String) (n u us pw py : Option JValue)
        (of sf rf ef : Option String) (cf : String) (nc me ds ex met : Option JValue)
        (w : Option String) (s : Bool) (cwd : String) (cfg : Config),
        submit Err JobArgs mf n u us pw py of sf rf ef (some cf) nc me ds ex met w s cwd
            (fun _ => Except.ok cfg) (fun a => Except.ok a) (fun _ => Except.ok ())
          = Except.ok
              ((Event.createJob (resolvedArgs mf n u us pw py of sf rf ef cf nc me ds ex met cfg) ::
                  (if s then
                    [Event.writeConfig cf
                      (resolvedPairs (resolvedArgs mf n u us pw py of sf rf ef cf nc me ds ex met cfg))]
                  else []))
                ++ (if pyTruthy w then [Event.waitForCompletion] else [])))
    ∧ pyTruthy (some "False") = true
    ∧ pyTruthy none = false
    ∧ pyTruthy (some "") = false := by
  refine ⟨?_, by decide, by decide, by decide⟩
  intros
  apply submit_ok_trace

/-- C10: the fixed defaults of `submit` are `url = user = password = null`,
`python = 3` (not the `3.9` of the Python signature), `name = "My PyMAPDL job"`,
`num_cores = 1`, `memory = 100`, `disk_space = 100`, `exclusive = false`,
`max_execution_time = 1000`; and the remaining submission parameters —
`output_files`, `shell_file`, `requirements_file`, `extra_files` and `wait` —
are never read from the configuration file. -/
theorem claim_C10_fixed_defaults :
    (∀ (mf : String) (of sf rf ef : Option String) (cf : String),
        resolvedArgs mf none none none none none of sf rf ef cf none none none none none []
          = { main_file := mf, name := JValue.str "My PyMAPDL job", url := JValue.null,
              user := JValue.null, password := JValue.null, python := JValue.num 3,
              output_files := of, shell_file := sf, requirements_file := rf,
              extra_files := ef, config_file := cf, num_cores := JValue.num 1,
              memory := JValue.num 100, disk_space := JValue.num 100,
              exclusive := JValue.bool false, max_execution_time := JValue.num 1000 })
    ∧ (∀ (cfg : Config), (∀ k, cfg.lookup k = none) →
        ∀ (mf : String) (of sf rf ef : Option String) (cf : String),
        resolvedArgs mf none none none none none of sf rf ef cf none none none none none cfg
          = { main_file := mf, name := JValue.str "My PyMAPDL job", url := JValue.null,
              user := JValue.null, password := JValue.null, python := JValue.num 3,
              output_files := of, shell_file := sf, requirements_file := rf,
              extra_files := ef, config_file := cf, num_cores := JValue.num 1,
              memory := JValue.num 100, disk_space := JValue.num 100,
              exclusive := JValue.bool false, max_execution_time := JValue.num 1000 })
    ∧ (∀ (mf : String) (n u us pw py : Option JValue) (of sf rf ef : Option String)
        (cf : String) (nc me ds ex met : Option JValue) (cfg : Config),
        (resolvedArgs mf n u us pw py of sf rf ef cf nc me ds ex met cfg).output_files = of
        ∧ (resolvedArgs mf n u us pw py of sf rf ef cf nc me ds ex met cfg).shell_file = sf
        ∧ (resolvedArgs mf n u us pw py of sf rf ef cf nc me ds ex met cfg).requirements_file = rf
        ∧ (resolvedArgs mf n u us pw py of sf rf ef cf nc me ds ex met cfg).extra_files = ef)
    ∧ (∀ (Err : Type) (mf : String) (n u us pw py : Option JValue)
        (of sf rf ef : Option String) (cf : String) (nc me ds ex met : Option JValue)
        (w : Option String) (s : Bool) (cwd : String) (cfg : Config),
        (submit Err JobArgs mf n u us pw py of sf rf ef (some cf) nc me ds ex met w s cwd
              (fun _ => Except.ok cfg) (fun a => Except.ok a) (fun _ => Except.ok ())).map
            (fun es => decide (Event.waitForCompletion ∈ es))
          = Except.ok (pyTruthy w)) := by
  refine ⟨fun _ _ _ _ _ _ => rfl, ?_, fun _ _ _ _ _ _ _ _ _ _ _ _ _ _ _ _ _ =>
    ⟨rfl, rfl, rfl, rfl⟩, ?_⟩
  · intro cfg h mf of sf rf ef cf
    simp [resolvedArgs, get_value_from_json_or_default, h]
  · intro Err mf n u us pw py of sf rf ef cf nc me ds ex met w s cwd cfg
    rw [submit_ok_trace]
    cases hp : pyTruthy w <;> cases s <;> rfl

/-- C10 witness: the concrete all-default resolution over an empty
configuration file. -/
theorem claim_C10_witness :
    resolvedArgs "main.py" none none none none none none none none none "cfg.json"
        none none none none none []
      = { main_file := "main.py", name := JValue.str "My PyMAPDL job", url := JValue.null,
          user := JValue.null, password := JValue.null, python := JValue.num 3,
          output_files := none, shell_file := none, requirements_file := none,
          extra_files := none, config_file := "cfg.json", num_cores := JValue.num 1,
          memory := JValue.num 100, disk_space := JValue.num 100,
          exclusive := JValue.bool false, max_execution_time := JValue.num 1000 } :=
  claim_C10_fixed_defaults.2.1 [] (fun _ => rfl) "main.py" none none none none "cfg.json"

end PyMapdl
